import Mathlib

/-!
Verification of the gemini-chatbot HTTP API layer: a shallow embedding of
the Hono route handlers for the chat, history and reservation resources,
together with models of the external collaborators they delegate to
(the database accessors from the db/queries module and the session
resolver), and proofs of the frozen claims about them.

Conventions of the embedding:
  - a JS value that may be null or undefined is an Option;
  - JS truthiness of a string id (undefined and the empty string are
    falsy) is made explicit via idTruthy;
  - an HTTPException thrown by a handler is a constructor of HtEx; the
    framework turns an uncaught one into a response with its status.
    Crucially, in the source every business-rule HTTPException of the
    reservation GET/PATCH and chat DELETE handlers is thrown inside a
    try block whose catch unconditionally rethrows a generic 500, so
    the embedding threads the thrown exception through an explicit
    catch that replaces it;
  - the database accessors live in the db/queries module of the
    repository, which is not under src/, so they are modelled from the
    spec (each such definition says so in its doc comment).
-/

/-- Session user as produced by the session resolver: the id field may be
absent (undefined). Mirrors session.user of next-auth. -/
structure SessionUser where
  id : Option String
deriving DecidableEq

/-- Session object: the user field may be absent. A request without a
session is modelled as an Option Session being none. -/
structure Session where
  user : Option SessionUser
deriving DecidableEq

/-- JS truthiness of an optional string: undefined and the empty string
are falsy. Used where the source tests a bare id, as in
if (session.user and session.user.id). -/
def idTruthy : Option String → Bool
  | none => false
  | some s => s ≠ ""

/-- Airport leg of a reservation, from the createReservation tool
parameter schema (cityName, airportCode, timestamp, gate, terminal). -/
structure Airport where
  cityName : String
  airportCode : String
  timestamp : String
  gate : String
  terminal : String
deriving DecidableEq

/-- Parameters of the createReservation tool call, from its zod schema. -/
structure CreateProps where
  seats : List String
  flightNumber : String
  departure : Airport
  arrival : Airport
  passengerName : String
deriving DecidableEq

/-- Free-form booking details stored on a reservation: the tool props
spread together with the computed totalPriceInUSD. -/
structure ReservationDetails where
  props : CreateProps
  totalPriceInUSD : Nat
deriving DecidableEq

/-- Reservation record: identifier, owning user id, payment flag and
details, as used by the reservation handlers and the tool executors. -/
structure Reservation where
  id : String
  userId : String
  hasCompletedPayment : Bool
  details : Option ReservationDetails
deriving DecidableEq

/-- Message as stored in a chat: the streaming SDK core-message shape
with a role string and text content. -/
structure CoreMessage where
  role : String
  content : String
deriving DecidableEq

/-- Chat record: identifier, owning user id and ordered messages. -/
structure Chat where
  id : String
  userId : String
  messages : List CoreMessage
deriving DecidableEq

/-- State of the external storage touched by the handlers. -/
structure Db where
  reservations : List Reservation
  chats : List Chat
deriving DecidableEq

/-- Lookup of a reservation by id in the store. -/
def findReservation (db : Db) (id : String) : Option Reservation :=
  db.reservations.find? (fun r => r.id == id)

/-- Lookup of a chat by id in the store. -/
def findChat (db : Db) (id : String) : Option Chat :=
  db.chats.find? (fun ch => ch.id == id)

/-- Exceptions a handler body can raise: an HTTPException with a status
and message, a failure inside a delegated database call, or a TypeError
from dereferencing an undefined value. -/
inductive HtEx where
  | http (status : Nat) (message : String)
  | dbError
  | typeError
deriving DecidableEq

/-- Modelled from the spec: getReservationById is an accessor of the
db/queries module, which is not under src/. Per the design notes it
appears to throw on a missing id rather than return null, but the spec
flags this as ambiguous, so the model is parametrized by
throwsOnMissing, covering both behaviours. -/
def getReservationById (throwsOnMissing : Bool) (db : Db) (id : String) :
    Except HtEx (Option Reservation) :=
  match findReservation db id with
  | some r => .ok (some r)
  | none => if throwsOnMissing then .error .dbError else .ok none

/-- Modelled from the spec: getChatById is an accessor of the db/queries
module, which is not under src/. Same not-found ambiguity as
getReservationById. -/
def getChatById (throwsOnMissing : Bool) (db : Db) (id : String) :
    Except HtEx (Option Chat) :=
  match findChat db id with
  | some ch => .ok (some ch)
  | none => if throwsOnMissing then .error .dbError else .ok none

/-- Modelled from the spec: updateReservation of the db/queries module
(not under src/) sets the payment flag of the reservation with the
given id and returns the updated row. -/
def updateReservation (db : Db) (id : String) (flag : Bool) :
    Db × Option Reservation :=
  let rs := db.reservations.map
    (fun r => if r.id == id then { r with hasCompletedPayment := flag } else r)
  let db2 : Db := { db with reservations := rs }
  (db2, findReservation db2 id)

/-- Modelled from the spec: deleteChatById of the db/queries module (not
under src/) removes the chat with the given id. -/
def deleteChatById (db : Db) (id : String) : Db :=
  { db with chats := db.chats.filter (fun ch => ch.id != id) }

/-- Modelled from the spec: saveChat of the db/queries module (not under
src/) persists the given message history under the chat id and user id,
replacing an existing chat with that id. -/
def saveChatDb (db : Db) (id : String) (messages : List CoreMessage)
    (userId : String) : Db :=
  { db with chats :=
      Chat.mk id userId messages ::
        db.chats.filter (fun ch => ch.id != id) }

/-- Modelled from the spec: createReservation of the db/queries module
(not under src/) inserts a new reservation row. -/
def insertReservation (db : Db) (r : Reservation) : Db :=
  { db with reservations := r :: db.reservations }

/-- Modelled JS toLowerCase: lowercases every character of the string
(the ASCII-level behaviour of the JS call, which is all the comparison
with the ASCII literal vercel exercises). Structural recursion over the
character list so that it evaluates inside the kernel. -/
def jsToLowerCase (s : String) : String :=
  String.mk (s.data.map Char.toLower)

/-- Result of a handler as observed by the client: a success value, or a
response whose status comes from the HTTPException that escaped. -/
inductive HandlerResult (α : Type) where
  | ok (value : α)
  | error (status : Nat) (message : String)
deriving DecidableEq

/-- Message of the generic catch-all response thrown by the reservation
handlers. -/
def genericErrorMsg : String := "An error occurred while processing your request!"

/-- Result of the body of the reservation GET /:id handler, mirroring
the source line by line: fetch the reservation, compare its userId with
the session user id (a mismatch throws a 401 HTTPException), return the
reservation. A fetch that returns undefined makes reservation.userId a
TypeError. This is the inside of the try block. -/
def reservationGetTry (throwsOnMissing : Bool) (db : Db) (id : String)
    (u : SessionUser) : Except HtEx Reservation :=
  match getReservationById throwsOnMissing db id with
  | .error e => .error e
  | .ok none => .error .typeError
  | .ok (some r) =>
    if u.id ≠ some r.userId then
      .error (.http 401 "Unauthorized!")
    else
      .ok r

/-- Reservation GET /:id handler. The id and session guards run outside
the try block, so their HTTPExceptions reach the client unchanged; any
exception inside the try block is replaced by the generic 500 of the
catch. -/
def reservationGet (throwsOnMissing : Bool) (db : Db) (id : String)
    (session : Option Session) : HandlerResult Reservation :=
  if id = "" then .error 404 "Not Found!"
  else
    match session with
    | none => .error 401 "Unauthorized!"
    | some s =>
      match s.user with
      | none => .error 401 "Unauthorized!"
      | some u =>
        match reservationGetTry throwsOnMissing db id u with
        | .ok r => .ok r
        | .error _ => .error 500 genericErrorMsg

/-- Outcome of reading and destructuring the PATCH request body: the
json call itself can throw on an invalid body; a present string
magicWord is carried; a missing or non-string magicWord makes the
subsequent toLowerCase call a TypeError, recorded as parsed none. -/
inductive BodyResult where
  | parseError
  | parsed (magicWord : Option String)
deriving DecidableEq

/-- Steps of the PATCH try block, in source order, used to record which
checks a run actually evaluated. -/
inductive PatchStep where
  | fetch
  | existence
  | ownership
  | payment
  | readBody
  | magic
  | update
deriving DecidableEq

/-- Body of the reservation PATCH /:id handler, mirroring the source
line by line inside the try block: fetch, existence check (404),
ownership check (401), already-paid check (409), read the body and
check the lowercased magic word against the literal vercel (400),
update the row. Returns the outcome, the possibly-updated store, and
the trace of steps evaluated. -/
def reservationPatchTry (throwsOnMissing : Bool) (db : Db) (id : String)
    (u : SessionUser) (body : BodyResult) :
    Except HtEx Reservation × Db × List PatchStep :=
  match getReservationById throwsOnMissing db id with
  | .error e => (.error e, db, [.fetch])
  | .ok fetched =>
    match fetched with
    | none => (.error (.http 404 "Reservation not found!"), db, [.fetch, .existence])
    | some r =>
      if u.id ≠ some r.userId then
        (.error (.http 401 "Unauthorized!"), db, [.fetch, .existence, .ownership])
      else if r.hasCompletedPayment then
        (.error (.http 409 "Reservation is already paid!"), db,
          [.fetch, .existence, .ownership, .payment])
      else
        match body with
        | .parseError =>
          (.error .typeError, db,
            [.fetch, .existence, .ownership, .payment, .readBody])
        | .parsed none =>
          (.error .typeError, db,
            [.fetch, .existence, .ownership, .payment, .readBody])
        | .parsed (some w) =>
          if jsToLowerCase w ≠ "vercel" then
            (.error (.http 400 "Invalid magic word!"), db,
              [.fetch, .existence, .ownership, .payment, .readBody, .magic])
          else
            match updateReservation db id true with
            | (db2, some r2) =>
              (.ok r2, db2,
                [.fetch, .existence, .ownership, .payment, .readBody, .magic, .update])
            | (db2, none) =>
              (.error .typeError, db2,
                [.fetch, .existence, .ownership, .payment, .readBody, .magic, .update])

/-- Reservation PATCH /:id handler. The id and session guards run
outside the try block; every exception raised inside the try block,
including the business-rule HTTPExceptions, is replaced by the generic
500 of the catch. Returns the client-visible result and the store. -/
def reservationPatch (throwsOnMissing : Bool) (db : Db) (id : String)
    (session : Option Session) (body : BodyResult) :
    HandlerResult Reservation × Db :=
  if id = "" then (.error 404 "Not Found!", db)
  else
    match session with
    | none => (.error 401 "Unauthorized!", db)
    | some s =>
      match s.user with
      | none => (.error 401 "Unauthorized!", db)
      | some u =>
        match reservationPatchTry throwsOnMissing db id u body with
        | (.ok r, db2, _) => (.ok r, db2)
        | (.error _, db2, _) => (.error 500 genericErrorMsg, db2)

/-- Trace of the steps a PATCH run evaluated, discarding the outcome. -/
def patchTrace (throwsOnMissing : Bool) (db : Db) (id : String)
    (u : SessionUser) (body : BodyResult) : List PatchStep :=
  (reservationPatchTry throwsOnMissing db id u body).2.2

/-- Body of the chat DELETE /:id handler inside its try block: fetch the
chat, compare its userId with the session user id (mismatch throws a
401 HTTPException), delete it and return the success body. A fetch that
returns undefined makes chat.userId a TypeError. -/
def chatDeleteTry (throwsOnMissing : Bool) (db : Db) (id : String)
    (u : SessionUser) : Except HtEx String × Db :=
  match getChatById throwsOnMissing db id with
  | .error e => (.error e, db)
  | .ok none => (.error .typeError, db)
  | .ok (some ch) =>
    if u.id ≠ some ch.userId then
      (.error (.http 401 "Unauthorized"), db)
    else
      (.ok "Chat deleted successfully", deleteChatById db id)

/-- Chat DELETE /:id handler. The id and session guards run outside the
try block; any exception inside the try block is replaced by the
generic 500 of the catch. -/
def chatDelete (throwsOnMissing : Bool) (db : Db) (id : String)
    (session : Option Session) : HandlerResult String × Db :=
  if id = "" then (.error 404 "Not Found", db)
  else
    match session with
    | none => (.error 401 "Unauthorized", db)
    | some s =>
      match s.user with
      | none => (.error 401 "Unauthorized", db)
      | some u =>
        match chatDeleteTry throwsOnMissing db id u with
        | (.ok msg, db2) => (.ok msg, db2)
        | (.error _, db2) =>
          (.error 500 "An error occurred while processing your request", db2)

/-- History GET / handler: session guard, then the hardcoded dummy list
(the acknowledged stub). -/
def historyGet (session : Option Session) : HandlerResult (List Chat) :=
  match session with
  | none => .error 401 "Unauthorized"
  | some s =>
    match s.user with
    | none => .error 401 "Unauthorized"
    | some _ => .ok [Chat.mk "1" "1" [CoreMessage.mk "user" "Hello"]]

/-- Untyped JSON value, the input shape the zod validator receives. -/
inductive Json where
  | str (s : String)
  | num (n : Int)
  | boolean (b : Bool)
  | null
  | arr (elems : List Json)
  | obj (fields : List (String × Json))

/-- Lookup of an object field by key (JSON objects have unique keys). -/
def getField (fields : List (String × Json)) (k : String) : Option Json :=
  (fields.find? (fun p => p.1 == k)).map (fun p => p.2)

/-- Role allowed by the chat POST schema: the zod enum of user and
assistant. -/
inductive Role where
  | user
  | assistant
deriving DecidableEq

/-- String form of a schema role, as it appears in the JSON input. -/
def Role.toString : Role → String
  | .user => "user"
  | .assistant => "assistant"

/-- Message shape accepted by the chat POST schema: a role from the enum
and a string content. -/
structure InMessage where
  role : Role
  content : String
deriving DecidableEq

/-- Validated chat POST body: the conversation id and the messages. -/
structure ChatBody where
  id : String
  messages : List InMessage
deriving DecidableEq

/-- Parse of one schema role from JSON: only the strings user and
assistant are accepted, mirroring the zod enum. -/
def parseRole : Json → Option Role
  | .str s =>
    if s = "user" then some .user
    else if s = "assistant" then some .assistant
    else none
  | _ => none

/-- Parse of one message object against the schema: an object with a
role field from the enum and a string content field (any string,
including the empty one). Unknown extra keys are ignored, as zod does
by default. -/
def parseMessage (j : Json) : Option InMessage :=
  match j with
  | .obj fields =>
    (getField fields "role").bind (fun rj =>
      (parseRole rj).bind (fun r =>
        (getField fields "content").bind (fun cj =>
          match cj with
          | .str c => some (InMessage.mk r c)
          | _ => none)))
  | _ => none

/-- Validation of the messages array: every element must satisfy
parseMessage, mirroring the zod array validator. -/
def parseMessages : List Json → Option (List InMessage)
  | [] => some []
  | e :: es =>
    match parseMessage e, parseMessages es with
    | some m, some ms => some (m :: ms)
    | _, _ => none

/-- Validation of a chat POST body against the fixed zod schema: an
object with a string id and an array of messages, each validated by
parseMessage. This is what the zValidator middleware runs before the
handler body. -/
def validateChatBody (j : Json) : Option ChatBody :=
  match j with
  | .obj fields =>
    (getField fields "id").bind (fun ij =>
      match ij with
      | .str i =>
        (getField fields "messages").bind (fun mj =>
          match mj with
          | .arr elems =>
            (parseMessages elems).map (fun ms => ChatBody.mk i ms)
          | _ => none)
      | _ => none)
  | _ => none

/-- Modelled from the spec: convertToCoreMessages of the external
streaming SDK turns a schema message into the core-message shape; for a
message with a role from the enum and plain string content it preserves
both. -/
def toCore (m : InMessage) : CoreMessage :=
  CoreMessage.mk m.role.toString m.content

/-- Core messages the handler builds from a validated body: the
converted messages with every empty-content message filtered out,
mirroring the filter on message.content.length greater than zero. -/
def coreMessagesOf (b : ChatBody) : List CoreMessage :=
  (b.messages.map toCore).filter (fun m => m.content.length > 0)

/-- Client-visible outcome of the chat POST handler: the 400 of the
validator middleware, the 401 of the session guard, or the streamed
response. -/
inductive ChatPostRes where
  | invalidBody
  | unauthorized
  | streamed
deriving DecidableEq

/-- Arguments of a saveChat call attempted by the onFinish callback. -/
structure SaveCall where
  id : String
  messages : List CoreMessage
  userId : String
deriving DecidableEq

/-- Full observable outcome of one chat POST request: the response, the
messages handed to the streaming call when one was opened, the saveChat
call attempted by onFinish when one was, and the resulting store. -/
structure ChatPostOut where
  res : ChatPostRes
  streamedMessages : Option (List CoreMessage)
  saveAttempt : Option SaveCall
  db : Db
deriving DecidableEq

/-- Chat POST / handler. The zValidator middleware rejects a body the
schema refuses before the handler body runs; the session guard then
tests only that the session is not null; the streaming call receives
the filtered core messages; onFinish persists the core messages
followed by the generated response messages under the session user id,
but only when session.user and session.user.id are truthy, and a
saveChat failure is swallowed (saveFails models it), leaving the
already-sent streamed response unchanged. -/
def chatPost (raw : Json) (session : Option Session)
    (responseMessages : List CoreMessage) (saveFails : Bool) (db : Db) :
    ChatPostOut :=
  match validateChatBody raw with
  | none => ChatPostOut.mk .invalidBody none none db
  | some b =>
    match session with
    | none => ChatPostOut.mk .unauthorized none none db
    | some s =>
      let core := coreMessagesOf b
      let attempt : Option SaveCall :=
        match s.user with
        | none => none
        | some u =>
          if idTruthy u.id then
            match u.id with
            | some uid => some (SaveCall.mk b.id (core ++ responseMessages) uid)
            | none => none
          else none
      let db2 :=
        match attempt with
        | none => db
        | some call =>
          if saveFails then db else saveChatDb db call.id call.messages call.userId
      ChatPostOut.mk .streamed (some core) attempt db2

/-- Result of the createReservation tool executor: the created
reservation data with its price, or the explicit not-signed-in error
value. -/
inductive CreateResult where
  | ok (id : String) (props : CreateProps) (totalPriceInUSD : Nat)
  | notSignedIn
deriving DecidableEq

/-- Message of the not-signed-in result of the createReservation tool. -/
def notSignedInMsg : String := "User is not signed in to perform this action!"

/-- Executor of the createReservation tool, mirroring the source: the
price comes from the external pricing function and the fresh id from
generateUUID (both passed in), the session is re-resolved via auth
(passed in as authResult), and only when session, session.user and
session.user.id are all truthy is a row inserted under that user id and
the data returned with the price; otherwise the explicit error value is
returned and nothing is persisted. -/
def createReservationExecute (authResult : Option Session)
    (totalPriceInUSD : Nat) (newId : String) (props : CreateProps) (db : Db) :
    CreateResult × Db :=
  match authResult with
  | none => (.notSignedIn, db)
  | some s =>
    match s.user with
    | none => (.notSignedIn, db)
    | some u =>
      if idTruthy u.id then
        match u.id with
        | some uid =>
          (.ok newId props totalPriceInUSD,
            insertReservation db
              (Reservation.mk newId uid false
                (some (ReservationDetails.mk props totalPriceInUSD))))
        | none => (.notSignedIn, db)
      else (.notSignedIn, db)

/-- Executor of the verifyPayment tool, mirroring the source: it fetches
the reservation by id and returns its payment flag. It consults no
session and performs no ownership check; a fetch that throws or returns
undefined makes the executor itself throw. -/
def verifyPaymentExecute (throwsOnMissing : Bool) (db : Db)
    (reservationId : String) : Except HtEx Bool :=
  match getReservationById throwsOnMissing db reservationId with
  | .error e => .error e
  | .ok none => .error .typeError
  | .ok (some r) => .ok r.hasCompletedPayment

/-- Executor of the authorizePayment tool: a pure echo of the
reservation id. -/
def authorizePaymentExecute (reservationId : String) : String :=
  reservationId

/-- Canonical order of the PATCH try-block steps. -/
def patchOrder : List PatchStep :=
  [.fetch, .existence, .ownership, .payment, .readBody, .magic, .update]

/-- Fixture: user id string of user A. -/
def userA : SessionUser := SessionUser.mk (some "A")

/-- Fixture: user B, distinct from A. -/
def userB : SessionUser := SessionUser.mk (some "B")

/-- Fixture: session of user A. -/
def sessA : Session := Session.mk (some userA)

/-- Fixture: session of user B. -/
def sessB : Session := Session.mk (some userB)

/-- Fixture: a non-null session without a user. -/
def sessNoUser : Session := Session.mk none

/-- Fixture: an unpaid reservation of user A. -/
def r1 : Reservation := Reservation.mk "r1" "A" false none

/-- Fixture: the same reservation with the payment flag set. -/
def r1paid : Reservation := Reservation.mk "r1" "A" true none

/-- Fixture: store holding the unpaid reservation r1. -/
def db1 : Db := Db.mk [r1] []

/-- Fixture: store holding the paid reservation r1. -/
def db1paid : Db := Db.mk [r1paid] []

/-- Fixture: a chat owned by user A. -/
def chatA : Chat := Chat.mk "c1" "A" []

/-- Fixture: store holding only the chat of user A. -/
def dbChat : Db := Db.mk [] [chatA]

/-- Fixture: the empty store. -/
def db0 : Db := Db.mk [] []

/-- Fixture: a well-formed chat POST body with one user message. -/
def jBody : Json :=
  Json.obj [("id", Json.str "chat1"),
    ("messages", Json.arr [Json.obj [("role", Json.str "user"),
      ("content", Json.str "hi")]])]

/-- Fixture: sample createReservation tool props. -/
def props0 : CreateProps :=
  CreateProps.mk ["1A"] "NZ1" (Airport.mk "Auckland" "AKL" "t0" "g1" "t1")
    (Airport.mk "Sydney" "SYD" "t2" "g2" "t2") "Jo"

/-- Fixture: a chat POST body whose single message has empty content. -/
def jBodyEmptyMsg : Json :=
  Json.obj [("id", Json.str "chat1"),
    ("messages", Json.arr [Json.obj [("role", Json.str "user"),
      ("content", Json.str "")]])]

/-- Helper: a fetch that throws ends the PATCH try block at once. -/
theorem patchTry_fetch_throws (db : Db) (id : String) (u : SessionUser)
    (body : BodyResult) (h : findReservation db id = none) :
    reservationPatchTry true db id u body = (.error .dbError, db, [.fetch]) := by
  simp [reservationPatchTry, getReservationById, h]

/-- Helper: a fetch returning undefined trips the existence check. -/
theorem patchTry_missing (db : Db) (id : String) (u : SessionUser)
    (body : BodyResult) (h : findReservation db id = none) :
    reservationPatchTry false db id u body =
      (.error (.http 404 "Reservation not found!"), db, [.fetch, .existence]) := by
  simp [reservationPatchTry, getReservationById, h]

/-- Helper: an ownership mismatch ends the PATCH try block with the 401
exception, before the payment check and before the body is read. -/
theorem patchTry_foreign (tm : Bool) (db : Db) (id : String) (u : SessionUser)
    (body : BodyResult) (r : Reservation)
    (h : findReservation db id = some r) (hown : u.id ≠ some r.userId) :
    reservationPatchTry tm db id u body =
      (.error (.http 401 "Unauthorized!"), db, [.fetch, .existence, .ownership]) := by
  simp [reservationPatchTry, getReservationById, h, hown]

/-- Helper: an already-paid reservation ends the PATCH try block with
the 409 exception, before the body is read. -/
theorem patchTry_paid (tm : Bool) (db : Db) (id : String) (u : SessionUser)
    (body : BodyResult) (r : Reservation)
    (h : findReservation db id = some r) (hown : u.id = some r.userId)
    (hpaid : r.hasCompletedPayment = true) :
    reservationPatchTry tm db id u body =
      (.error (.http 409 "Reservation is already paid!"), db,
        [.fetch, .existence, .ownership, .payment]) := by
  simp [reservationPatchTry, getReservationById, h, hown, hpaid]

/-- Helper: a missing or non-string magicWord raises the TypeError of
toLowerCase after the body is read. -/
theorem patchTry_noWord (tm : Bool) (db : Db) (id : String) (u : SessionUser)
    (r : Reservation)
    (h : findReservation db id = some r) (hown : u.id = some r.userId)
    (hpaid : r.hasCompletedPayment = false) :
    reservationPatchTry tm db id u (.parsed none) =
      (.error .typeError, db,
        [.fetch, .existence, .ownership, .payment, .readBody]) := by
  simp [reservationPatchTry, getReservationById, h, hown, hpaid]

/-- Helper: a body on which the json call throws raises inside the try
block after the earlier checks passed. -/
theorem patchTry_parseError (tm : Bool) (db : Db) (id : String)
    (u : SessionUser) (r : Reservation)
    (h : findReservation db id = some r) (hown : u.id = some r.userId)
    (hpaid : r.hasCompletedPayment = false) :
    reservationPatchTry tm db id u .parseError =
      (.error .typeError, db,
        [.fetch, .existence, .ownership, .payment, .readBody]) := by
  simp [reservationPatchTry, getReservationById, h, hown, hpaid]

/-- Helper: a magic word whose lowercase form differs from vercel raises
the 400 exception and leaves the store untouched. -/
theorem patchTry_badWord (tm : Bool) (db : Db) (id : String) (u : SessionUser)
    (r : Reservation) (w : String)
    (h : findReservation db id = some r) (hown : u.id = some r.userId)
    (hpaid : r.hasCompletedPayment = false) (hw : jsToLowerCase w ≠ "vercel") :
    reservationPatchTry tm db id u (.parsed (some w)) =
      (.error (.http 400 "Invalid magic word!"), db,
        [.fetch, .existence, .ownership, .payment, .readBody, .magic]) := by
  simp [reservationPatchTry, getReservationById, h, hown, hpaid, hw]

/-- Helper: a magic word lowercasing to vercel reaches the update step. -/
theorem patchTry_goodWord (tm : Bool) (db : Db) (id : String) (u : SessionUser)
    (r : Reservation) (w : String)
    (h : findReservation db id = some r) (hown : u.id = some r.userId)
    (hpaid : r.hasCompletedPayment = false) (hw : jsToLowerCase w = "vercel") :
    reservationPatchTry tm db id u (.parsed (some w)) =
      (match updateReservation db id true with
        | (db2, some r2) => (.ok r2, db2, patchOrder)
        | (db2, none) => (.error .typeError, db2, patchOrder)) := by
  simp [reservationPatchTry, getReservationById, h, hown, hpaid, hw, patchOrder]

/-- Helper: with the guards passed, the PATCH handler is the try block
followed by the catch that turns any exception into the generic 500. -/
theorem reservationPatch_eq (tm : Bool) (db : Db) (id : String)
    (u : SessionUser) (body : BodyResult) (hid : id ≠ "") :
    reservationPatch tm db id (some (Session.mk (some u))) body =
      (match reservationPatchTry tm db id u body with
        | (.ok r, db2, _) => (.ok r, db2)
        | (.error _, db2, _) => (.error 500 genericErrorMsg, db2)) := by
  simp [reservationPatch, hid]

/-- Helper: with the guards passed, the GET handler is the try block
followed by the catch. -/
theorem reservationGet_eq (tm : Bool) (db : Db) (id : String)
    (u : SessionUser) (hid : id ≠ "") :
    reservationGet tm db id (some (Session.mk (some u))) =
      (match reservationGetTry tm db id u with
        | .ok r => .ok r
        | .error _ => .error 500 genericErrorMsg) := by
  simp [reservationGet, hid]

/-- Helper: with the guards passed, the DELETE handler is the try block
followed by the catch. -/
theorem chatDelete_eq (tm : Bool) (db : Db) (id : String)
    (u : SessionUser) (hid : id ≠ "") :
    chatDelete tm db id (some (Session.mk (some u))) =
      (match chatDeleteTry tm db id u with
        | (.ok msg, db2) => (.ok msg, db2)
        | (.error _, db2) =>
          (.error 500 "An error occurred while processing your request", db2)) := by
  simp [chatDelete, hid]

/-- Claim C5: the reservation PATCH handler evaluates its business rules
in exactly the order existence, ownership, payment-not-complete, magic
word: every run evaluates a take-prefix of the canonical step order, an
ownership mismatch stops after the ownership check, an already-paid
reservation stops after the payment check, and in every such early stop
the request body is never read and the outcome is independent of the
body. -/
theorem claim_C5_patch_check_order (tm : Bool) (db : Db) (id : String)
    (u : SessionUser) (body body2 : BodyResult) :
    (∃ n, patchTrace tm db id u body = patchOrder.take n) ∧
    (findReservation db id = none →
      PatchStep.readBody ∉ patchTrace tm db id u body ∧
      reservationPatchTry tm db id u body = reservationPatchTry tm db id u body2) ∧
    (∀ r, findReservation db id = some r → u.id ≠ some r.userId →
      patchTrace tm db id u body = patchOrder.take 3 ∧
      PatchStep.readBody ∉ patchTrace tm db id u body ∧
      reservationPatchTry tm db id u body = reservationPatchTry tm db id u body2) ∧
    (∀ r, findReservation db id = some r → u.id = some r.userId →
      r.hasCompletedPayment = true →
      patchTrace tm db id u body = patchOrder.take 4 ∧
      PatchStep.readBody ∉ patchTrace tm db id u body ∧
      reservationPatchTry tm db id u body = reservationPatchTry tm db id u body2) := by
  refine ⟨?_, ?_, ?_, ?_⟩
  · rcases hf : findReservation db id with _ | r
    · cases tm
      · exact ⟨2, by simp [patchTrace, patchTry_missing db id u body hf, patchOrder]⟩
      · exact ⟨1, by simp [patchTrace, patchTry_fetch_throws db id u body hf, patchOrder]⟩
    · by_cases hown : u.id = some r.userId
      · by_cases hpaid : r.hasCompletedPayment = true
        · exact ⟨4, by
            simp [patchTrace, patchTry_paid tm db id u body r hf hown hpaid, patchOrder]⟩
        · have hpaid2 : r.hasCompletedPayment = false := by simpa using hpaid
          cases body with
          | parseError =>
            exact ⟨5, by
              simp [patchTrace,
                patchTry_parseError tm db id u r hf hown hpaid2, patchOrder]⟩
          | parsed ow =>
            cases ow with
            | none =>
              exact ⟨5, by
                simp [patchTrace,
                  patchTry_noWord tm db id u r hf hown hpaid2, patchOrder]⟩
            | some w =>
              by_cases hw : jsToLowerCase w = "vercel"
              · refine ⟨7, ?_⟩
                have hg := patchTry_goodWord tm db id u r w hf hown hpaid2 hw
                rcases hup : updateReservation db id true with ⟨db2, or2⟩
                rw [hup] at hg
                cases or2 <;> simp [patchTrace, hg, patchOrder]
              · exact ⟨6, by
                  simp [patchTrace,
                    patchTry_badWord tm db id u r w hf hown hpaid2 hw, patchOrder]⟩
      · exact ⟨3, by
          simp [patchTrace, patchTry_foreign tm db id u body r hf hown, patchOrder]⟩
  · intro hf
    cases tm
    · exact ⟨by simp [patchTrace, patchTry_missing db id u body hf],
        by rw [patchTry_missing db id u body hf, patchTry_missing db id u body2 hf]⟩
    · exact ⟨by simp [patchTrace, patchTry_fetch_throws db id u body hf],
        by rw [patchTry_fetch_throws db id u body hf,
          patchTry_fetch_throws db id u body2 hf]⟩
  · intro r hf hown
    refine ⟨by simp [patchTrace, patchTry_foreign tm db id u body r hf hown, patchOrder],
      by simp [patchTrace, patchTry_foreign tm db id u body r hf hown],
      by rw [patchTry_foreign tm db id u body r hf hown,
        patchTry_foreign tm db id u body2 r hf hown]⟩
  · intro r hf hown hpaid
    refine ⟨by simp [patchTrace, patchTry_paid tm db id u body r hf hown hpaid, patchOrder],
      by simp [patchTrace, patchTry_paid tm db id u body r hf hown hpaid],
      by rw [patchTry_paid tm db id u body r hf hown hpaid,
        patchTry_paid tm db id u body2 r hf hown hpaid]⟩

/-- Witness for claim C5: on the store holding the unpaid reservation of
user A, a PATCH by user B stops at the ownership check, with the body
never read, whatever the body holds. -/
theorem claim_C5_witness :
    patchTrace true db1 "r1" userB (.parsed (some "vercel")) = patchOrder.take 3 ∧
    PatchStep.readBody ∉ patchTrace true db1 "r1" userB (.parsed (some "vercel")) ∧
    reservationPatchTry true db1 "r1" userB (.parsed (some "vercel")) =
      reservationPatchTry true db1 "r1" userB (.parsed none) :=
  (claim_C5_patch_check_order true db1 "r1" userB
      (.parsed (some "vercel")) (.parsed none)).2.2.1 r1 (by decide) (by decide)

/-- Claim C2, evaluated against the code: on a stored reservation whose
payment flag is already true, the PATCH handler of the source responds
with the generic 500 — the thrown 409 is swallowed by the catch-all of
the same handler — while the stored flag is indeed left unchanged, for
every body and either fetch behaviour. The claim states status 409,
which is what the handler visibly constructs before its own catch
replaces it. -/
theorem claim_C2_code_eval (tm : Bool) (body : BodyResult) :
    reservationPatch tm db1paid "r1" (some sessA) body =
      (.error 500 genericErrorMsg, db1paid) := by
  have hg := patchTry_paid tm db1paid "r1" userA body r1paid rfl rfl rfl
  show reservationPatch tm db1paid "r1" (some (Session.mk (some userA))) body =
    (.error 500 genericErrorMsg, db1paid)
  rw [reservationPatch_eq tm db1paid "r1" userA body (by decide), hg]

/-- Claim C9: a PATCH request that passes the existence, ownership and
not-already-paid checks but whose body lacks a string magicWord field
gets the generic 500 (the toLowerCase TypeError is caught by the
catch-all) and the store is unchanged. -/
theorem claim_C9_missing_word_500 (tm : Bool) (db : Db) (id : String)
    (u : SessionUser) (r : Reservation) (hid : id ≠ "")
    (hfind : findReservation db id = some r) (hown : u.id = some r.userId)
    (hpaid : r.hasCompletedPayment = false) :
    reservationPatch tm db id (some (Session.mk (some u))) (.parsed none) =
      (.error 500 genericErrorMsg, db) := by
  rw [reservationPatch_eq tm db id u _ hid,
    patchTry_noWord tm db id u r hfind hown hpaid]

/-- Witness for claim C9: user A PATCHes the unpaid reservation r1 with
a body without a magicWord string and gets the 500, the store intact. -/
theorem claim_C9_witness :
    reservationPatch true db1 "r1" (some (Session.mk (some userA)))
      (.parsed none) = (.error 500 genericErrorMsg, db1) :=
  claim_C9_missing_word_500 true db1 "r1" userA r1 (by decide) (by decide)
    (by decide) (by decide)

/-- Claim C3, evaluated against the code: the magic-word comparison is
indeed case-insensitive equality with the literal vercel — the words
VERCEL, vercel and Vercel all set the payment flag and return the
updated reservation — but a word whose lowercase form differs yields
the generic 500, not the 400 the claim states, because the thrown 400
is swallowed by the catch-all of the handler; the stored flag stays
unchanged. -/
theorem claim_C3_code_eval :
    (∀ tm : Bool, reservationPatch tm db1 "r1" (some sessA)
      (.parsed (some "VERCEL")) = (.ok r1paid, db1paid)) ∧
    (∀ tm : Bool, reservationPatch tm db1 "r1" (some sessA)
      (.parsed (some "vercel")) = (.ok r1paid, db1paid)) ∧
    (∀ tm : Bool, reservationPatch tm db1 "r1" (some sessA)
      (.parsed (some "Vercel")) = (.ok r1paid, db1paid)) ∧
    (∀ (tm : Bool) (w : String), jsToLowerCase w ≠ "vercel" →
      reservationPatch tm db1 "r1" (some sessA) (.parsed (some w)) =
        (.error 500 genericErrorMsg, db1)) := by
  refine ⟨fun tm => rfl, fun tm => rfl, fun tm => rfl, fun tm w hw => ?_⟩
  have hg := patchTry_badWord tm db1 "r1" userA r1 w rfl rfl rfl hw
  show reservationPatch tm db1 "r1" (some (Session.mk (some userA)))
    (.parsed (some w)) = (.error 500 genericErrorMsg, db1)
  rw [reservationPatch_eq tm db1 "r1" userA _ (by decide), hg]

/-- Witness for claim C3: the word hello does not lowercase to vercel
and the handler answers it with the generic 500, store intact. -/
theorem claim_C3_witness :
    jsToLowerCase "hello" ≠ "vercel" ∧
    reservationPatch true db1 "r1" (some sessA) (.parsed (some "hello")) =
      (.error 500 genericErrorMsg, db1) :=
  ⟨by decide, claim_C3_code_eval.2.2.2 true "hello" (by decide)⟩

/-- Helper: the updated row returned by updateReservation is the found
row with only the payment flag replaced. -/
theorem update_found_aux (l : List Reservation) (id : String) (flag : Bool) :
    (l.map (fun r => if r.id == id then { r with hasCompletedPayment := flag }
        else r)).find? (fun r => r.id == id) =
      (l.find? (fun r => r.id == id)).map
        (fun r => { r with hasCompletedPayment := flag }) := by
  induction l with
  | nil => rfl
  | cons a l ih =>
    by_cases h : (a.id == id) = true
    · simp [List.find?, h]
    · simp only [List.map_cons, List.find?]
      rw [if_neg (by simpa using h)]
      simp only [h]
      simpa [h] using ih

/-- Helper: the row updateReservation returns is the previously found
row with the payment flag set. -/
theorem updateReservation_snd (db : Db) (id : String) (flag : Bool) :
    (updateReservation db id flag).2 =
      (findReservation db id).map
        (fun r => { r with hasCompletedPayment := flag }) := by
  show findReservation
      (Db.mk
        (db.reservations.map
          (fun r =>
            if r.id == id then { r with hasCompletedPayment := flag } else r))
        db.chats) id =
    (findReservation db id).map (fun r => { r with hasCompletedPayment := flag })
  unfold findReservation
  exact update_found_aux db.reservations id flag

/-- Helper: an ownership mismatch makes the GET try block raise the 401
exception. -/
theorem getTry_foreign (tm : Bool) (db : Db) (id : String) (u : SessionUser)
    (r : Reservation) (hf : findReservation db id = some r)
    (hown : u.id ≠ some r.userId) :
    reservationGetTry tm db id u = .error (.http 401 "Unauthorized!") := by
  simp [reservationGetTry, getReservationById, hf, hown]

/-- Helper: an ownership mismatch makes the DELETE try block raise the
401 exception and leave the store untouched. -/
theorem deleteTry_foreign (tm : Bool) (db : Db) (id : String) (u : SessionUser)
    (ch : Chat) (hf : findChat db id = some ch)
    (hown : u.id ≠ some ch.userId) :
    chatDeleteTry tm db id u = (.error (.http 401 "Unauthorized"), db) := by
  simp [chatDeleteTry, getChatById, hf, hown]

/-- Helper: a successful GET try block found the reservation and the
ownership check passed. -/
theorem getTry_ok_inv (tm : Bool) (db : Db) (id : String) (u : SessionUser)
    (r2 : Reservation) (h : reservationGetTry tm db id u = .ok r2) :
    findReservation db id = some r2 ∧ u.id = some r2.userId := by
  unfold reservationGetTry getReservationById at h
  rcases hf : findReservation db id with _ | r <;> rw [hf] at h
  · cases tm <;> simp at h
  · simp only at h
    by_cases hown : u.id = some r.userId
    · rw [if_neg (not_not_intro hown)] at h
      simp only [Except.ok.injEq] at h
      subst h
      exact ⟨rfl, hown⟩
    · rw [if_pos hown] at h
      exact absurd h (by simp)

/-- Helper: a successful DELETE try block found the chat, the ownership
check passed, and the store lost exactly that chat id. -/
theorem deleteTry_ok_inv (tm : Bool) (db : Db) (id : String) (u : SessionUser)
    (msg : String) (db2 : Db)
    (h : chatDeleteTry tm db id u = (.ok msg, db2)) :
    ∃ ch, findChat db id = some ch ∧ u.id = some ch.userId ∧
      db2 = deleteChatById db id := by
  unfold chatDeleteTry getChatById at h
  rcases hf : findChat db id with _ | ch <;> rw [hf] at h
  · cases tm <;> simp at h
  · simp only at h
    by_cases hown : u.id = some ch.userId
    · rw [if_neg (not_not_intro hown)] at h
      simp only [Prod.mk.injEq] at h
      exact ⟨ch, rfl, hown, h.2.symm⟩
    · rw [if_pos hown] at h
      exact absurd h (by simp)

/-- Helper: a successful PATCH try block found the reservation, the
ownership check passed, and the update produced the returned row. -/
theorem patchTry_ok_inv (tm : Bool) (db : Db) (id : String) (u : SessionUser)
    (body : BodyResult) (r2 : Reservation) (db2 : Db) (tr : List PatchStep)
    (h : reservationPatchTry tm db id u body = (.ok r2, db2, tr)) :
    ∃ r, findReservation db id = some r ∧ u.id = some r.userId ∧
      updateReservation db id true = (db2, some r2) := by
  rcases hf : findReservation db id with _ | r
  · cases tm
    · rw [patchTry_missing db id u body hf] at h; exact absurd h (by simp)
    · rw [patchTry_fetch_throws db id u body hf] at h; exact absurd h (by simp)
  · by_cases hown : u.id = some r.userId
    · by_cases hpaid : r.hasCompletedPayment = true
      · rw [patchTry_paid tm db id u body r hf hown hpaid] at h
        exact absurd h (by simp)
      · have hpaid2 : r.hasCompletedPayment = false := by simpa using hpaid
        cases body with
        | parseError =>
          rw [patchTry_parseError tm db id u r hf hown hpaid2] at h
          exact absurd h (by simp)
        | parsed ow =>
          cases ow with
          | none =>
            rw [patchTry_noWord tm db id u r hf hown hpaid2] at h
            exact absurd h (by simp)
          | some w =>
            by_cases hw : jsToLowerCase w = "vercel"
            · rw [patchTry_goodWord tm db id u r w hf hown hpaid2 hw] at h
              rcases hup : updateReservation db id true with ⟨db3, or3⟩
              rw [hup] at h
              cases or3 with
              | none => simp at h
              | some r3 =>
                simp only [Prod.mk.injEq, Except.ok.injEq] at h
                obtain ⟨h1, h2, _⟩ := h
                exact ⟨r, rfl, hown, by rw [h1, h2]⟩
            · rw [patchTry_badWord tm db id u r w hf hown hpaid2 hw] at h
              exact absurd h (by simp)
    · rw [patchTry_foreign tm db id u body r hf hown] at h
      exact absurd h (by simp)

/-- Claim C1 counterexample: the verifyPayment tool executor reads the
reservation of user A and succeeds although it consults no session and
verifies no ownership at all (its but arguments are the store and the
reservation id), and the ownership violations of the GET and PATCH
handlers surface as the generic 500 of the catch-all rather than as a
401 authorization failure. -/
theorem claim_C1_counterexample :
    r1.userId = "A" ∧
    verifyPaymentExecute true db1 "r1" = .ok false ∧
    reservationGet true db1 "r1" (some sessB) = .error 500 genericErrorMsg ∧
    reservationPatch true db1 "r1" (some sessB) (.parsed (some "vercel")) =
      (.error 500 genericErrorMsg, db1) :=
  ⟨rfl, rfl, rfl, rfl⟩

/-- Claim C1 as amended: the reservation GET and PATCH handlers and the
chat DELETE handler do verify that the fetched resource belongs to the
session user, and a violation always yields an error response — the
thrown 401 is converted to the generic 500 by the catch-all of each
handler — never a success; a success of any of the three implies the
ownership matched; and the createReservation executor only ever adds a
reservation owned by the session user. The verifyPayment executor is
excluded: it performs no ownership check. -/
theorem claim_C1_ownership_amended (tm : Bool) (db : Db) (id : String)
    (u : SessionUser) :
    (∀ r, id ≠ "" → findReservation db id = some r → u.id ≠ some r.userId →
      reservationGet tm db id (some (Session.mk (some u))) =
        .error 500 genericErrorMsg) ∧
    (∀ r body, id ≠ "" → findReservation db id = some r →
      u.id ≠ some r.userId →
      reservationPatch tm db id (some (Session.mk (some u))) body =
        (.error 500 genericErrorMsg, db)) ∧
    (∀ ch, id ≠ "" → findChat db id = some ch → u.id ≠ some ch.userId →
      chatDelete tm db id (some (Session.mk (some u))) =
        (.error 500 "An error occurred while processing your request", db)) ∧
    (∀ r2, reservationGet tm db id (some (Session.mk (some u))) = .ok r2 →
      u.id = some r2.userId) ∧
    (∀ body r2 db2,
      reservationPatch tm db id (some (Session.mk (some u))) body =
        (.ok r2, db2) → u.id = some r2.userId) ∧
    (∀ msg db2,
      chatDelete tm db id (some (Session.mk (some u))) = (.ok msg, db2) →
      ∃ ch, findChat db id = some ch ∧ u.id = some ch.userId) ∧
    (∀ price nid props r2,
      r2 ∈ ((createReservationExecute (some (Session.mk (some u))) price nid
        props db).2).reservations →
      r2 ∈ db.reservations ∨ u.id = some r2.userId) := by
  refine ⟨?_, ?_, ?_, ?_, ?_, ?_, ?_⟩
  · intro r hid hf hown
    rw [reservationGet_eq tm db id u hid, getTry_foreign tm db id u r hf hown]
  · intro r body hid hf hown
    rw [reservationPatch_eq tm db id u body hid,
      patchTry_foreign tm db id u body r hf hown]
  · intro ch hid hf hown
    rw [chatDelete_eq tm db id u hid, deleteTry_foreign tm db id u ch hf hown]
  · intro r2 h
    by_cases hid : id = ""
    · rw [hid] at h; simp [reservationGet] at h
    · rw [reservationGet_eq tm db id u hid] at h
      rcases htry : reservationGetTry tm db id u with e | r3 <;> rw [htry] at h
      · simp at h
      · simp only [HandlerResult.ok.injEq] at h
        subst h
        exact (getTry_ok_inv tm db id u r3 htry).2
  · intro body r2 db2 h
    by_cases hid : id = ""
    · rw [hid] at h; simp [reservationPatch] at h
    · rw [reservationPatch_eq tm db id u body hid] at h
      rcases htry : reservationPatchTry tm db id u body with ⟨res, db3, tr⟩
      rw [htry] at h
      cases res with
      | error e => simp at h
      | ok r3 =>
        simp only [Prod.mk.injEq, HandlerResult.ok.injEq] at h
        obtain ⟨h1, h2⟩ := h
        obtain ⟨r, hf, hown, hup⟩ := patchTry_ok_inv tm db id u body r3 db3 tr htry
        have hsnd := updateReservation_snd db id true
        rw [hup, hf] at hsnd
        simp only [Option.map_some'] at hsnd
        have hr3 : r3 = { r with hasCompletedPayment := true } := by
          simpa using hsnd
        rw [← h1, hr3]
        exact hown
  · intro msg db2 h
    by_cases hid : id = ""
    · rw [hid] at h; simp [chatDelete] at h
    · rw [chatDelete_eq tm db id u hid] at h
      rcases htry : chatDeleteTry tm db id u with ⟨res, db3⟩
      rw [htry] at h
      cases res with
      | error e => simp at h
      | ok m =>
        obtain ⟨ch, hf, hown, _⟩ := deleteTry_ok_inv tm db id u m db3 htry
        exact ⟨ch, hf, hown⟩
  · intro price nid props r2 hmem
    rcases hu : u.id with _ | uid
    · have hc : createReservationExecute (some (Session.mk (some u))) price nid
          props db = (.notSignedIn, db) := by
        simp [createReservationExecute, idTruthy, hu]
      rw [hc] at hmem
      exact Or.inl hmem
    · by_cases hne : uid = ""
      · have hc : createReservationExecute (some (Session.mk (some u))) price nid
            props db = (.notSignedIn, db) := by
          simp [createReservationExecute, idTruthy, hu, hne]
        rw [hc] at hmem
        exact Or.inl hmem
      · have hc : createReservationExecute (some (Session.mk (some u))) price nid
            props db =
            (.ok nid props price,
              insertReservation db (Reservation.mk nid uid false
                (some (ReservationDetails.mk props price)))) := by
          simp [createReservationExecute, idTruthy, hu, hne]
        rw [hc] at hmem
        simp only [insertReservation, List.mem_cons] at hmem
        rcases hmem with h | h
        · right
          subst h
          simp [hu]
        · exact Or.inl h

/-- Witness for the amended claim C1: user B asking for the reservation
of user A over GET receives the error response, not the reservation. -/
theorem claim_C1_witness :
    reservationGet true db1 "r1" (some (Session.mk (some userB))) =
      .error 500 genericErrorMsg :=
  (claim_C1_ownership_amended true db1 "r1" userB).1 r1 (by decide) (by decide)
    (by decide)

/-- Claim C4 counterexample: a chat POST carrying a non-null session
that has no user is not answered with 401 — the guard of that handler
tests only for a null session — so the handler streams; no state is
mutated, but the claim says every such request gets a 401. -/
theorem claim_C4_counterexample :
    chatPost jBody (some sessNoUser) [] false db0 =
      ChatPostOut.mk .streamed (some [CoreMessage.mk "user" "hi"]) none db0 ∧
    (chatPost jBody (some sessNoUser) [] false db0).res ≠ .unauthorized :=
  ⟨rfl, by decide⟩

/-- Claim C4 as amended: for a request with no session or a session
without a user, the reservation GET, reservation PATCH and chat DELETE
handlers answer 401 and mutate nothing; the chat POST handler answers
401 only when the session is null (also mutating nothing), while a
non-null session without a user passes its guard and the handler
streams, still mutating nothing. -/
theorem claim_C4_unauthorized_amended (tm : Bool) (db : Db) (id : String)
    (session : Option Session) (raw : Json) (rm : List CoreMessage)
    (sf : Bool) (body : BodyResult)
    (hsess : session = none ∨ session = some (Session.mk none)) :
    (id ≠ "" → reservationGet tm db id session = .error 401 "Unauthorized!") ∧
    (id ≠ "" → reservationPatch tm db id session body =
      (.error 401 "Unauthorized!", db)) ∧
    (id ≠ "" → chatDelete tm db id session = (.error 401 "Unauthorized", db)) ∧
    (chatPost raw none rm sf db =
      (match validateChatBody raw with
        | none => ChatPostOut.mk .invalidBody none none db
        | some _ => ChatPostOut.mk .unauthorized none none db)) ∧
    (∀ b, validateChatBody raw = some b →
      chatPost raw (some (Session.mk none)) rm sf db =
        ChatPostOut.mk .streamed (some (coreMessagesOf b)) none db) := by
  refine ⟨?_, ?_, ?_, ?_, ?_⟩
  · intro hid
    rcases hsess with h | h <;> subst h <;> simp [reservationGet, hid]
  · intro hid
    rcases hsess with h | h <;> subst h <;> simp [reservationPatch, hid]
  · intro hid
    rcases hsess with h | h <;> subst h <;> simp [chatDelete, hid]
  · rcases hv : validateChatBody raw with _ | b <;> simp [chatPost, hv]
  · intro b hv
    simp [chatPost, hv]

/-- Witness for the amended claim C4: an unauthenticated reservation GET
gets 401, and a chat POST with a session lacking a user streams with
nothing persisted. -/
theorem claim_C4_witness :
    reservationGet true db1 "r1" none = .error 401 "Unauthorized!" ∧
    chatPost jBody (some (Session.mk none)) [] false db0 =
      ChatPostOut.mk .streamed
        (some (coreMessagesOf (ChatBody.mk "chat1" [InMessage.mk .user "hi"])))
        none db0 :=
  ⟨(claim_C4_unauthorized_amended true db1 "r1" none jBody [] false
      (.parsed none) (Or.inl rfl)).1 (by decide),
    (claim_C4_unauthorized_amended true db0 "r1" (some (Session.mk none)) jBody
      [] false (.parsed none) (Or.inr rfl)).2.2.2.2
      (ChatBody.mk "chat1" [InMessage.mk .user "hi"]) rfl⟩

/-- Claim C10: a chat POST with a non-null session that has no user, or
a user without a truthy id, is not rejected with 401 — the streaming
response is produced normally — but nothing is ever persisted, because
the onFinish persistence additionally requires a truthy user id. -/
theorem claim_C10_session_without_user (raw : Json) (b : ChatBody)
    (s : Session) (rm : List CoreMessage) (sf : Bool) (db : Db)
    (hv : validateChatBody raw = some b)
    (hu : s.user = none ∨ ∃ u, s.user = some u ∧ idTruthy u.id = false) :
    (chatPost raw (some s) rm sf db).res = .streamed ∧
    (chatPost raw (some s) rm sf db).res ≠ .unauthorized ∧
    (chatPost raw (some s) rm sf db).saveAttempt = none ∧
    (chatPost raw (some s) rm sf db).db = db := by
  rcases hu with hnone | ⟨u, hsu, hid⟩
  · simp [chatPost, hv, hnone]
  · simp [chatPost, hv, hsu, hid]

/-- Witness for claim C10: a session whose user has no id streams and
persists nothing. -/
theorem claim_C10_witness :
    (chatPost jBody (some (Session.mk (some (SessionUser.mk none)))) [] false
      db0).res = .streamed ∧
    (chatPost jBody (some (Session.mk (some (SessionUser.mk none)))) [] false
      db0).res ≠ .unauthorized ∧
    (chatPost jBody (some (Session.mk (some (SessionUser.mk none)))) [] false
      db0).saveAttempt = none ∧
    (chatPost jBody (some (Session.mk (some (SessionUser.mk none)))) [] false
      db0).db = db0 :=
  claim_C10_session_without_user jBody
    (ChatBody.mk "chat1" [InMessage.mk .user "hi"])
    (Session.mk (some (SessionUser.mk none))) [] false db0 rfl
    (Or.inr ⟨SessionUser.mk none, rfl, rfl⟩)

/-- Claim C7: the createReservation tool executor persists a new
reservation exactly when the re-resolved session carries a user with a
truthy id, storing it under that user id and returning the data with
the computed price; in every other case it returns the explicit
not-signed-in value and the store is untouched. -/
theorem claim_C7_createReservation (price : Nat) (nid : String)
    (props : CreateProps) (db : Db) :
    (createReservationExecute none price nid props db = (.notSignedIn, db)) ∧
    (∀ s, s.user = none →
      createReservationExecute (some s) price nid props db =
        (.notSignedIn, db)) ∧
    (∀ s u, s.user = some u → idTruthy u.id = false →
      createReservationExecute (some s) price nid props db =
        (.notSignedIn, db)) ∧
    (∀ s u uid, s.user = some u → u.id = some uid → uid ≠ "" →
      createReservationExecute (some s) price nid props db =
        (.ok nid props price,
          insertReservation db (Reservation.mk nid uid false
            (some (ReservationDetails.mk props price))))) := by
  refine ⟨rfl, ?_, ?_, ?_⟩
  · intro s hsu
    simp [createReservationExecute, hsu]
  · intro s u hsu hid
    simp [createReservationExecute, hsu, hid]
  · intro s u uid hsu hu hne
    simp [createReservationExecute, hsu, hu, idTruthy, hne]

/-- Witness for claim C7: with the session of user A resolved at call
time, the executor inserts the reservation under A and returns the data
with the price. -/
theorem claim_C7_witness :
    createReservationExecute (some sessA) 100 "n1" props0 db0 =
      (.ok "n1" props0 100,
        insertReservation db0 (Reservation.mk "n1" "A" false
          (some (ReservationDetails.mk props0 100)))) :=
  (claim_C7_createReservation 100 "n1" props0 db0).2.2.2 sessA userA "A" rfl rfl
    (by decide)

/-- Claim C8: after the streaming call finishes, a saveChat call is
attempted exactly when the session carries a user with a truthy id; the
attempted call persists the filtered core messages followed by the
generated response messages, in that order, under that user id and the
given conversation id; and a failing saveChat is swallowed — the
response is the same and the store is left as it was. -/
theorem claim_C8_persist_onFinish (raw : Json) (b : ChatBody) (s : Session)
    (rm : List CoreMessage) (db : Db)
    (hv : validateChatBody raw = some b) :
    ((chatPost raw (some s) rm false db).saveAttempt ≠ none ↔
      ∃ u, s.user = some u ∧ idTruthy u.id = true) ∧
    (∀ u uid, s.user = some u → u.id = some uid → uid ≠ "" →
      (chatPost raw (some s) rm false db).saveAttempt =
        some (SaveCall.mk b.id (coreMessagesOf b ++ rm) uid) ∧
      (chatPost raw (some s) rm false db).db =
        saveChatDb db b.id (coreMessagesOf b ++ rm) uid) ∧
    ((chatPost raw (some s) rm true db).res =
      (chatPost raw (some s) rm false db).res ∧
      (chatPost raw (some s) rm true db).db = db ∧
      (chatPost raw (some s) rm true db).saveAttempt =
        (chatPost raw (some s) rm false db).saveAttempt) := by
  refine ⟨?_, ?_, ?_⟩
  · rcases hsu : s.user with _ | u
    · simp [chatPost, hv, hsu]
    · by_cases hid : idTruthy u.id = true
      · rcases hu : u.id with _ | uid
        · rw [hu] at hid
          simp [idTruthy] at hid
        · simp [chatPost, hv, hsu, hu, hid]
      · have hid2 : idTruthy u.id = false := by simpa using hid
        simp [chatPost, hv, hsu, hid2]
  · intro u uid hsu hu hne
    simp [chatPost, hv, hsu, hu, idTruthy, hne]
  · rcases hsu : s.user with _ | u
    · simp [chatPost, hv, hsu]
    · by_cases hid : idTruthy u.id = true
      · rcases hu : u.id with _ | uid
        · rw [hu] at hid
          simp [idTruthy] at hid
        · rw [hu] at hid
          simp [chatPost, hv, hsu, hu, hid]
      · have hid2 : idTruthy u.id = false := by simpa using hid
        simp [chatPost, hv, hsu, hid2]

/-- Witness for claim C8: user A posts one message; on finish the chat
is saved under A with the original message followed by the generated
reply. -/
theorem claim_C8_witness :
    (chatPost jBody (some sessA) [CoreMessage.mk "assistant" "ok"] false
      db0).saveAttempt =
      some (SaveCall.mk "chat1"
        [CoreMessage.mk "user" "hi", CoreMessage.mk "assistant" "ok"] "A") ∧
    (chatPost jBody (some sessA) [CoreMessage.mk "assistant" "ok"] false
      db0).db =
      saveChatDb db0 "chat1"
        [CoreMessage.mk "user" "hi", CoreMessage.mk "assistant" "ok"] "A" :=
  (claim_C8_persist_onFinish jBody
      (ChatBody.mk "chat1" [InMessage.mk .user "hi"]) sessA
      [CoreMessage.mk "assistant" "ok"] db0 rfl).2.1 userA "A" rfl rfl
    (by decide)

/-- Helper: the role parser only accepts the two enum strings, and the
accepted JSON value is exactly the string form of the parsed role. -/
theorem parseRole_inv (j : Json) (r : Role) (h : parseRole j = some r) :
    j = Json.str r.toString := by
  cases j with
  | str s =>
    simp only [parseRole] at h
    by_cases h1 : s = "user"
    · rw [if_pos h1] at h
      simp only [Option.some.injEq] at h
      subst h
      rw [h1]
      rfl
    · rw [if_neg h1] at h
      by_cases h2 : s = "assistant"
      · rw [if_pos h2] at h
        simp only [Option.some.injEq] at h
        subst h
        rw [h2]
        rfl
      · rw [if_neg h2] at h
        exact absurd h (by simp)
  | num n => exact absurd h (by simp [parseRole])
  | boolean b => exact absurd h (by simp [parseRole])
  | null => exact absurd h (by simp [parseRole])
  | arr xs => exact absurd h (by simp [parseRole])
  | obj fs => exact absurd h (by simp [parseRole])

/-- Helper: an accepted message element is an object carrying the role
field as the enum string of the parsed role and the content field as
the string of the parsed content. -/
theorem parseMessage_inv (j : Json) (m : InMessage)
    (h : parseMessage j = some m) :
    ∃ fs, j = Json.obj fs ∧
      getField fs "role" = some (.str m.role.toString) ∧
      getField fs "content" = some (.str m.content) := by
  cases j with
  | obj fs =>
    simp only [parseMessage] at h
    rcases hr : getField fs "role" with _ | rj <;>
      rw [hr] at h <;> simp only [Option.none_bind, Option.some_bind] at h
    · exact absurd h (by simp)
    · rcases hrole : parseRole rj with _ | r <;>
        rw [hrole] at h <;> simp only [Option.none_bind, Option.some_bind] at h
      · exact absurd h (by simp)
      · rcases hc : getField fs "content" with _ | cj <;>
          rw [hc] at h <;> simp only [Option.none_bind, Option.some_bind] at h
        · exact absurd h (by simp)
        · cases cj with
          | str c =>
            simp only [Option.some.injEq] at h
            subst h
            exact ⟨fs, rfl, by rw [hr, parseRole_inv rj r hrole], hc⟩
          | num n => exact absurd h (by simp)
          | boolean b => exact absurd h (by simp)
          | null => exact absurd h (by simp)
          | arr xs => exact absurd h (by simp)
          | obj fs2 => exact absurd h (by simp)
  | str s => exact absurd h (by simp [parseMessage])
  | num n => exact absurd h (by simp [parseMessage])
  | boolean b => exact absurd h (by simp [parseMessage])
  | null => exact absurd h (by simp [parseMessage])
  | arr xs => exact absurd h (by simp [parseMessage])

/-- Helper: an accepted messages array validates element by element. -/
theorem parseMessages_inv (elems : List Json) (ms : List InMessage)
    (h : parseMessages elems = some ms) :
    List.Forall₂ (fun e m => parseMessage e = some m) elems ms := by
  induction elems generalizing ms with
  | nil =>
    simp only [parseMessages, Option.some.injEq] at h
    subst h
    exact List.Forall₂.nil
  | cons e es ih =>
    simp only [parseMessages] at h
    rcases hm : parseMessage e with _ | m <;> rw [hm] at h
    · exact absurd h (by simp)
    · rcases hms : parseMessages es with _ | ms2 <;> rw [hms] at h
      · exact absurd h (by simp)
      · simp only [Option.some.injEq] at h
        subst h
        exact List.Forall₂.cons hm (ih ms2 hms)

/-- Claim C6 counterexample: a body whose single message has empty text
is accepted by the schema — the zod schema only requires content to be
a string — so it is not rejected before processing; the handler streams
and the empty message is instead dropped by the later filter. -/
theorem claim_C6_counterexample :
    validateChatBody jBodyEmptyMsg =
      some (ChatBody.mk "chat1" [InMessage.mk .user ""]) ∧
    (chatPost jBodyEmptyMsg (some sessA) [] false db0).res = .streamed ∧
    (chatPost jBodyEmptyMsg (some sessA) [] false db0).res ≠ .invalidBody ∧
    (chatPost jBodyEmptyMsg (some sessA) [] false db0).streamedMessages =
      some [] :=
  ⟨rfl, rfl, by decide, rfl⟩

/-- Claim C6 as amended: chat POST bodies are validated against the
fixed schema — an accepted body is an object with a string id and an
array of message objects whose role field is one of the enum strings
user and assistant and whose content field is a string (the schema does
not require the string to be non-empty) — a body the schema refuses is
rejected before the handler body runs, and for accepted inputs every
message with empty content is filtered out of the list handed to the
streaming call. -/
theorem claim_C6_schema_amended :
    (∀ j b, validateChatBody j = some b →
      ∃ fields elems, j = Json.obj fields ∧
        getField fields "id" = some (.str b.id) ∧
        getField fields "messages" = some (.arr elems) ∧
        List.Forall₂ (fun e m => ∃ fs, e = Json.obj fs ∧
          getField fs "role" = some (.str m.role.toString) ∧
          getField fs "content" = some (.str m.content)) elems b.messages) ∧
    (∀ b m, m ∈ coreMessagesOf b ↔
      (m ∈ b.messages.map toCore ∧ m.content.length > 0)) ∧
    (∀ raw b s rm sf db, validateChatBody raw = some b →
      (chatPost raw (some s) rm sf db).streamedMessages =
        some (coreMessagesOf b)) ∧
    (∀ raw s rm sf db, validateChatBody raw = none →
      chatPost raw (some s) rm sf db =
        ChatPostOut.mk .invalidBody none none db) := by
  refine ⟨?_, ?_, ?_, ?_⟩
  · intro j b h
    cases j with
    | obj fields =>
      simp only [validateChatBody] at h
      rcases hid : getField fields "id" with _ | ij <;>
        rw [hid] at h <;> simp only [Option.none_bind, Option.some_bind] at h
      · exact absurd h (by simp)
      · cases ij with
        | str i =>
          rcases hm : getField fields "messages" with _ | mj <;>
            rw [hm] at h <;>
            simp only [Option.none_bind, Option.some_bind] at h
          · exact absurd h (by simp)
          · cases mj with
            | arr elems =>
              simp only [Option.map_eq_some'] at h
              obtain ⟨ms, hp, hb⟩ := h
              subst hb
              refine ⟨fields, elems, rfl, hid, hm, ?_⟩
              exact (parseMessages_inv elems ms hp).imp
                (fun e m he => parseMessage_inv e m he)
            | str s => exact absurd h (by simp)
            | num n => exact absurd h (by simp)
            | boolean bb => exact absurd h (by simp)
            | null => exact absurd h (by simp)
            | obj fs2 => exact absurd h (by simp)
        | num n => exact absurd h (by simp)
        | boolean bb => exact absurd h (by simp)
        | null => exact absurd h (by simp)
        | arr xs => exact absurd h (by simp)
        | obj fs2 => exact absurd h (by simp)
    | str s => exact absurd h (by simp [validateChatBody])
    | num n => exact absurd h (by simp [validateChatBody])
    | boolean bb => exact absurd h (by simp [validateChatBody])
    | null => exact absurd h (by simp [validateChatBody])
    | arr xs => exact absurd h (by simp [validateChatBody])
  · intro b m
    simp [coreMessagesOf, List.mem_filter]
  · intro raw b s rm sf db hv
    simp [chatPost, hv]
  · intro raw s rm sf db hv
    simp [chatPost, hv]

/-- Witness for the amended claim C6: the well-formed fixture body is
accepted and its shape recovered; the handler streams exactly its
non-empty messages. -/
theorem claim_C6_witness :
    (chatPost jBody (some sessB) [] false db0).streamedMessages =
      some (coreMessagesOf (ChatBody.mk "chat1" [InMessage.mk .user "hi"])) :=
  claim_C6_schema_amended.2.2.1 jBody
    (ChatBody.mk "chat1" [InMessage.mk .user "hi"]) sessB [] false db0 rfl
